import Mathlib

/-!
Verification of the demo-recorder pipeline (packages/demo-recorder).

This file gives a shallow embedding of the pure logic of the sources
`task_runner.py` and `diff_analyzer.py`, and proves the frozen claims
about them.

Modelling conventions:
* Python strings are Lean `String`s; the primitive operations the code
  uses (`str.strip`, `str.lower`, substring containment, `re.sub` with
  the one literal pattern the code has, `pathlib` path splitting and
  `stem`) are re-implemented structurally over `List Char` so that every
  definition evaluates by kernel reduction.
* The process-level effects of `run_tasks` (starting and stopping Xvfb
  and ffmpeg, running the browser agent) are modelled as an event trace;
  an exception raised by a stage is modelled by a fault point in the
  environment, which makes the stage take the `except` path exactly as
  the sole `try/except/finally` of `run_tasks` does.  Collaborator
  answers (the agent history, the HTTP responses of the Convex store)
  are oracle values in the environment.
* Fallible Python code that catches everything and returns a value is a
  total Lean function; code that can raise is modelled with the fault
  oracle.  Machine integers do not occur (timestamps are unbounded
  Python `int`s), so `Int`/`Nat` are used directly.
-/

namespace DemoRecorder

/-! ## Python string primitives, re-implemented over `List Char` -/

/-- The Python whitespace class: the characters stripped by `str.strip()`
and matched by the regex class of whitespace characters. -/
def isPySpace (c : Char) : Bool :=
  c = ' ' || c = '\t' || c = '\n' || c = '\r' || c = Char.ofNat 11 || c = Char.ofNat 12

/-- Python `str.strip()`: drop leading and trailing whitespace. -/
def pyStrip (s : String) : String :=
  String.mk (((s.data.dropWhile isPySpace).reverse.dropWhile isPySpace).reverse)

/-- Python `str.lower()` (the sources only feed it ASCII). -/
def pyLower (s : String) : String :=
  String.mk (s.data.map Char.toLower)

/-- Substring containment on character lists: Python `needle in hay`. -/
def listContainsSub (needle : List Char) : List Char → Bool
  | [] => needle.isEmpty
  | c :: cs => needle.isPrefixOf (c :: cs) || listContainsSub needle cs

/-- Python `needle in hay` on strings. -/
def strContainsSub (hay needle : String) : Bool :=
  listContainsSub needle.data hay.data

/-- Split a character list on the slash character (the separator used by
`pathlib` on relative POSIX paths). -/
def splitSlash : List Char → List (List Char)
  | [] => [[]]
  | c :: cs =>
    if c = '/' then [] :: splitSlash cs
    else
      match splitSlash cs with
      | [] => [[c]]
      | g :: gs => (c :: g) :: gs

/-- `pathlib.Path(p).parts` for the relative POSIX paths the analyzer
receives from `git diff --name-only`: the nonempty slash-separated
segments. -/
def pathParts (p : String) : List String :=
  ((splitSlash p.data).map String.mk).filter fun s => s ≠ ""

/-- `pathlib.Path(name).stem`: the name without its final suffix; a name
whose only dot is leading or trailing keeps its full text. -/
def stemOf (name : String) : String :=
  let cs := name.data
  match cs.reverse.findIdx? (fun c => c = '.') with
  | none => name
  | some j =>
    let i := cs.length - 1 - j
    if i = 0 || i + 1 = cs.length then name else String.mk (cs.take i)

/-- `str.startswith("(")`. -/
def startsParen (s : String) : Bool :=
  match s.data with
  | '(' :: _ => true
  | _ => false

/-- `sep.join(parts)`. -/
def joinLines (sep : String) : List String → String
  | [] => ""
  | [s] => s
  | s :: rest => s ++ sep ++ joinLines sep rest

/-! ## Interaction events and post-trim rebasing (task_runner.py 436-440)

`extract_interaction_events` emits records with fields
`type/atMs/x/y/note` and returns them sorted ascending by `atMs`; after
a successful trim, `run_tasks` replaces each timestamp in place by
`max(0, atMs - trim_offset_ms)`. -/

structure InteractionEvent where
  type : String
  atMs : Int
  x : Int
  y : Int
  note : String
deriving DecidableEq

/-- The rebasing loop of `run_tasks` (lines 438-440), with
`trimOffsetMs` standing for `int(trim_offset_sec * 1000)`. -/
def rebase_events (trimOffsetMs : Int) (events : List InteractionEvent) :
    List InteractionEvent :=
  events.map fun e => { e with atMs := max 0 (e.atMs - trimOffsetMs) }

/-- Ascending (nondecreasing) order of the `atMs` timestamps, the order
`extract_interaction_events` establishes with its final sort. -/
abbrev EventsAscending (events : List InteractionEvent) : Prop :=
  events.Pairwise fun a b => a.atMs ≤ b.atMs

/-! ## Verdict resolution (task_runner.py 447-461)

The agent history exposes an optional judgement dict; its `verdict`
entry can be absent, a boolean, a string, or anything else.  `none` in
the `judgement` field models both a history without the `judgement`
attribute and a falsy (empty) judgement, which take the same branch. -/

inductive JudgementVerdict where
  | absent
  | boolVal (b : Bool)
  | strVal (s : String)
  | otherVal
deriving DecidableEq

structure Judgement where
  verdict : JudgementVerdict
  reasoning : Option String
  failure_reason : Option String
deriving DecidableEq

structure AgentHistory where
  judgement : Option Judgement
  is_done : Bool
  final_result : Option String
deriving DecidableEq

/-- Python `a or b` specialised to an optional string against a
default: `None` and the empty string are falsy. -/
def orElseStr (a : Option String) (b : String) : String :=
  match a with
  | some s => if s = "" then b else s
  | none => b

/-- The verdict computation of `run_tasks` (lines 447-461). -/
def resolve_verdict (h : AgentHistory) : String :=
  match h.judgement with
  | some j =>
    match j.verdict with
    | JudgementVerdict.boolVal b => if b then "pass" else "fail"
    | JudgementVerdict.strVal s => pyLower s
    | _ => if h.is_done then "pass" else "fail"
  | none => if h.is_done then "pass" else "fail"

/-- The reasoning computation of `run_tasks` (lines 456-461). -/
def resolve_reasoning (h : AgentHistory) : String :=
  match h.judgement with
  | some j => orElseStr j.reasoning (orElseStr j.failure_reason (orElseStr h.final_result ""))
  | none => orElseStr h.final_result ""

/-! ## Prompt building (task_runner.py 268-297) -/

structure Task where
  id : String
  description : String
deriving DecidableEq

/-- The literal part of the regex pattern of `build_prompt`. -/
def navPat : List Char := "Navigate to ".data

/-- One match attempt of the pattern at the head of the list: the
literal text, then a slash, then a maximal nonempty run of non-space
characters (the capture group starts at the slash).  Returns the
captured group and the remainder after the match. -/
def matchNav (l : List Char) : Option (List Char × List Char) :=
  if navPat.isPrefixOf l then
    match l.drop 12 with
    | '/' :: rest =>
      let body := rest.takeWhile fun c => !(isPySpace c)
      if body.isEmpty then none
      else some ('/' :: body, rest.drop body.length)
    | _ => none
  else none

/-- Left-to-right, non-overlapping substitution of every match by the
literal text, the base URL, and the captured group, exactly as the
single `re.sub` call of `build_prompt` does.  The fuel argument is the
remaining length; every step consumes at least one character, so with
initial fuel equal to the length the fuel never runs out. -/
def expandGo (base : List Char) : Nat → List Char → List Char
  | 0, l => l
  | _, [] => []
  | fuel + 1, c :: cs =>
    match matchNav (c :: cs) with
    | some (path, rest) => navPat ++ base ++ path ++ expandGo base fuel rest
    | none => c :: expandGo base fuel cs

/-- The relative-path expansion applied to one task description inside
`build_prompt` (lines 277-281). -/
def expandRel (base desc : String) : String :=
  String.mk (expandGo base.data desc.data.length desc.data)

/-- The step line for the task at zero-based position `i` (line 285). -/
def stepLine (base : String) (i : Nat) (t : Task) : String :=
  "  Step " ++ toString (i + 1) ++ " [" ++ t.id ++ "]: " ++
    expandRel base (pyStrip t.description)

/-- All step lines, in input order. -/
def stepLines (tasks : List Task) (base : String) : List String :=
  tasks.enum.map fun p => stepLine base p.1 p.2

/-- `build_prompt` (task_runner.py 268-297). -/
def build_prompt (tasks : List Task) (base_url : String) : String :=
  "The app is running at " ++ base_url ++
  "\n\nComplete the following verification steps in order:\n\n" ++
  joinLines "\n" (stepLines tasks base_url) ++
  "\n\nRecording instructions (important):\n" ++
  "- Complete ALL steps in sequence — do not skip any.\n" ++
  "- If a step cannot be completed (element not found, page error, etc.), stop immediately and report failure. Do not retry endlessly.\n" ++
  "- Do not close the browser when done."

/-! ## Diff analyzer (diff_analyzer.py)

`analyze_file` reads the working tree; the filesystem is modelled as a
partial map from paths to file contents (`none` = file does not exist,
matching `full_path.exists()` returning false). -/

structure UIChange where
  file_path : String
  change_type : String
  component_name : Option String
  route : Option String
  interactions : List String
deriving DecidableEq

/-- The app-router part of `_extract_route` (lines 89-99): walk the path
segments, turn the flag on at the first `app` segment, and afterwards
keep every segment that is not a `page.tsx`/`page.jsx`/`layout.tsx`
filename and does not start with an opening parenthesis. -/
def appSegs : Bool → List String → List String
  | _, [] => []
  | inApp, part :: rest =>
    if part = "app" then appSegs true rest
    else if inApp && !(part = "page.tsx" || part = "page.jsx" || part = "layout.tsx")
        && !(startsParen part) then
      part :: appSegs inApp rest
    else appSegs inApp rest

/-- `DiffAnalyzer._extract_route` (diff_analyzer.py 85-108). -/
def extract_route (file_path : String) : String :=
  if strContainsSub file_path "app/" then
    let parts := appSegs false (pathParts file_path)
    if parts.isEmpty then "/" else "/" ++ joinLines "/" parts
  else if strContainsSub file_path "pages/" then
    let name := stemOf ((pathParts file_path).getLastD "")
    if name = "index" then "/" else "/" ++ name
  else "/"

/-- The fixed interaction vocabulary, in the order the detection
appends. -/
def interactionVocab : List String :=
  ["click_button", "fill_form", "type_input", "select_option", "open_modal", "click_link"]

/-- The interactive-element detection of `analyze_file`
(diff_analyzer.py 63-75): six sequential appends, each guarded by a
substring test on the lower-cased or raw content. -/
def detect_interactions (content : String) : List String :=
  (if strContainsSub (pyLower content) "<button" || strContainsSub content "Button" then
    ["click_button"] else []) ++
  (if strContainsSub (pyLower content) "<form" || strContainsSub content "Form" then
    ["fill_form"] else []) ++
  (if strContainsSub (pyLower content) "<input" || strContainsSub content "Input" then
    ["type_input"] else []) ++
  (if strContainsSub (pyLower content) "<select" || strContainsSub content "Select" then
    ["select_option"] else []) ++
  (if strContainsSub (pyLower content) "modal" || strContainsSub content "Modal"
      || strContainsSub content "Dialog" then
    ["open_modal"] else []) ++
  (if strContainsSub (pyLower content) "<a " || strContainsSub content "Link" then
    ["click_link"] else [])

/-- First index of an occurrence of `needle` (Python `str.find`,
returning `none` for -1). -/
def findSubIdx (needle : List Char) : List Char → Option Nat
  | [] => if needle.isEmpty then some 0 else none
  | c :: cs =>
    if needle.isPrefixOf (c :: cs) then some 0
    else (findSubIdx needle cs).map (· + 1)

/-- Python `content.find(ch, start)` returning `none` for -1. -/
def findCharFrom (cs : List Char) (ch : Char) (start : Nat) : Option Nat :=
  ((cs.drop start).findIdx? fun c => c = ch).map (· + start)

/-- The slice `content[start:end].strip()` of `analyze_file`, where
`end` is the first `(` at or after `start`, and the slice runs to
`content[start:-1]` when no parenthesis exists (Python `find`
returning -1 used directly as a slice bound). -/
def sliceComponent (cs : List Char) (start : Nat) : String :=
  let stop :=
    match findCharFrom cs '(' start with
    | some j => j
    | none => cs.length - 1
  pyStrip (String.mk ((cs.take stop).drop start))

/-- The component-name extraction of `analyze_file`
(diff_analyzer.py 53-61). -/
def extract_component (content : String) : Option String :=
  match findSubIdx "export default function ".data content.data with
  | some i => some (sliceComponent content.data (i + 24))
  | none =>
    match findSubIdx "export function ".data content.data with
    | some i => some (sliceComponent content.data (i + 16))
    | none => none

/-- `DiffAnalyzer.analyze_file` (diff_analyzer.py 40-83) over the
filesystem oracle `files`. -/
def analyze_file (files : String → Option String) (file_path : String) : UIChange :=
  let route :=
    if strContainsSub file_path "app/" || strContainsSub file_path "pages/" then
      some (extract_route file_path)
    else none
  match files file_path with
  | some content =>
    { file_path := file_path
      change_type := "modified"
      component_name := extract_component content
      route := route
      interactions := detect_interactions content }
  | none =>
    { file_path := file_path
      change_type := "deleted"
      component_name := none
      route := route
      interactions := [] }

/-! ## Convex upload (task_runner.py 187-248)

The three HTTP calls are answered by an oracle.  `none` for a JSON
field models a missing key; Python truthiness makes the empty string
behave like a missing key, which the model reproduces. -/

structure HttpOracle where
  generateStatus : Nat
  generateValue : Option String
  uploadStatus : Nat
  uploadStorageId : Option String
  queryStatus : Nat
  queryValue : Option String
deriving DecidableEq

/-- `upload_to_convex` (task_runner.py 187-248). -/
def upload_to_convex (o : HttpOracle) : Option String :=
  if o.generateStatus ≠ 200 then none
  else
    match o.generateValue with
    | none => none
    | some uploadUrl =>
      if uploadUrl = "" then none
      else if o.uploadStatus ≠ 200 then none
      else
        match o.uploadStorageId with
        | none => none
        | some sid =>
          if sid = "" then none
          else if o.queryStatus = 200 then
            match o.queryValue with
            | some url => if url = "" then some ("convex:storage:" ++ sid) else some url
            | none => some ("convex:storage:" ++ sid)
          else some ("convex:storage:" ++ sid)

/-! ## The run_tasks orchestration (task_runner.py 302-543)

The body of `run_tasks` is one `try/except Exception/finally`.  The
model records process lifecycle operations as an event trace and keeps
the two process variables (`xvfb_proc`, `ffmpeg_proc`) as liveness
flags: a flag is set exactly when the Python variable holds a process
at that point, so the `finally` block (lines 537-542) stops exactly the
live processes, capture first.  A fault point marks the one stage (if
any) that raises; a fault at a stage the control flow never reaches
(for example the Xvfb start when `headless` is false) never fires. -/

inductive Ev where
  | startXvfb
  | startCapture
  | agentRun
  | stopCapture
  | stopXvfb
deriving DecidableEq

inductive Fault where
  /-- `start_xvfb` raises: `xvfb_proc` is never assigned. -/
  | atXvfbStart
  /-- a stage between the Xvfb start and the capture start raises
  (the `xdotool` call, `get_llm`, the `Agent` constructor). -/
  | afterXvfb
  /-- `start_screen_recording` raises: `ffmpeg_proc` is never
  assigned. -/
  | atCaptureStart
  /-- `agent.run` raises. -/
  | atAgentRun
  /-- a stage after the agent run but before the in-try capture stop
  raises (event extraction, the settle sleep). -/
  | afterAgentRun
  /-- a stage after the in-try capture stop raises (trim, probe,
  upload, summary or events write). -/
  | afterCaptureStop
deriving DecidableEq

structure RunEnv where
  headless : Bool
  fault : Option Fault
  faultMsg : String
  history : AgentHistory
  /-- `convex_url` was supplied and a final video file exists. -/
  convexReady : Bool
  http : HttpOracle

/-- State at the end of the `try` block: the events so far, whether the
two process variables are still set, and whether the block completed
without raising. -/
structure TryState where
  trace : List Ev
  xvfbLive : Bool
  ffmpegLive : Bool
  ok : Bool

/-- Mirrors `run_tasks` lines 394-511: capture already handled by the
caller; run the agent, extract events, stop the capture inside the
`try` (setting `ffmpeg_proc = None`, line 415), then post-process. -/
def phaseAgent (env : RunEnv) (tr : List Ev) (xv ff : Bool) : TryState :=
  let tr2 := tr ++ [Ev.agentRun]
  if env.fault = some Fault.atAgentRun then ⟨tr2, xv, ff, false⟩
  else if env.fault = some Fault.afterAgentRun then ⟨tr2, xv, ff, false⟩
  else
    let tr3 := if ff then tr2 ++ [Ev.stopCapture] else tr2
    if env.fault = some Fault.afterCaptureStop then ⟨tr3, xv, false, false⟩
    else ⟨tr3, xv, false, true⟩

/-- Mirrors `run_tasks` lines 395-398: start the ffmpeg capture only in
headless mode. -/
def phaseCapture (env : RunEnv) (tr : List Ev) (xv : Bool) : TryState :=
  if env.headless then
    if env.fault = some Fault.atCaptureStart then ⟨tr, xv, false, false⟩
    else phaseAgent env (tr ++ [Ev.startCapture]) xv true
  else phaseAgent env tr xv false

/-- Mirrors `run_tasks` lines 354-392: start Xvfb only in headless
mode, then the browser and agent setup. -/
def phaseDisplay (env : RunEnv) : TryState :=
  if env.headless then
    if env.fault = some Fault.atXvfbStart then ⟨[], false, false, false⟩
    else if env.fault = some Fault.afterXvfb then ⟨[Ev.startXvfb], true, false, false⟩
    else phaseCapture env [Ev.startXvfb] true
  else
    if env.fault = some Fault.afterXvfb then ⟨[], false, false, false⟩
    else phaseCapture env [] false

/-- The `TasksResult` dataclass (task_runner.py 253-263), restricted to
the fields the model computes; the output path is a filesystem value
outside the embedding. -/
structure TasksResult where
  tasks : List Task
  prompt : String
  success : Bool
  verdict : Option String
  verdict_reasoning : Option String
  error : Option String
  video_url : Option String

/-- The successful return of `run_tasks` (lines 516-525). -/
def successResult (tasks : List Task) (prompt : String) (env : RunEnv) : TasksResult :=
  { tasks := tasks
    prompt := prompt
    success := true
    verdict := some (resolve_verdict env.history)
    verdict_reasoning := some (resolve_reasoning env.history)
    error := none
    video_url := if env.convexReady then upload_to_convex env.http else none }

/-- The `except Exception` return of `run_tasks` (lines 527-535). -/
def failureResult (tasks : List Task) (prompt : String) (msg : String) : TasksResult :=
  { tasks := tasks
    prompt := prompt
    success := false
    verdict := none
    verdict_reasoning := none
    error := some msg
    video_url := none }

/-- `run_tasks` (task_runner.py 302-543): the try body, then the
`finally` block (lines 537-542) stopping the still-live capture process
first and the still-live display process second, then the returned
result. -/
def run_tasks (tasks : List Task) (base_url : String) (env : RunEnv) :
    List Ev × TasksResult :=
  let prompt := build_prompt tasks base_url
  let st := phaseDisplay env
  let fullTrace :=
    st.trace ++ (if st.ffmpegLive then [Ev.stopCapture] else []) ++
      (if st.xvfbLive then [Ev.stopXvfb] else [])
  let result :=
    if st.ok then successResult tasks prompt env
    else failureResult tasks prompt env.faultMsg
  (fullTrace, result)

/-- No capture-stop attempt happens after any display teardown in the
trace. -/
def noStopCaptureAfterStopXvfb : List Ev → Bool
  | [] => true
  | e :: rest =>
    if e = Ev.stopXvfb then !(rest.contains Ev.stopCapture) && noStopCaptureAfterStopXvfb rest
    else noStopCaptureAfterStopXvfb rest

/-! ## Helper lemmas -/

theorem isPrefixOf_map (f : Char → Char) :
    ∀ n h : List Char, n.isPrefixOf h = true → (n.map f).isPrefixOf (h.map f) = true := by
  intro n
  induction n with
  | nil => intro h _; simp [List.isPrefixOf]
  | cons a t ih =>
    intro h hp
    cases h with
    | nil => simp [List.isPrefixOf] at hp
    | cons b u =>
      simp only [List.isPrefixOf, Bool.and_eq_true, beq_iff_eq, List.map_cons] at hp ⊢
      exact ⟨by rw [hp.1], ih u hp.2⟩

theorem listContainsSub_map (f : Char → Char) (n : List Char) :
    ∀ h : List Char, listContainsSub n h = true →
      listContainsSub (n.map f) (h.map f) = true := by
  intro h
  induction h with
  | nil =>
    simp only [listContainsSub, List.isEmpty_iff, List.map_nil]
    intro hn; simp [hn]
  | cons c cs ih =>
    simp only [listContainsSub, Bool.or_eq_true, List.map_cons]
    rintro (hp | hs)
    · exact Or.inl (isPrefixOf_map f n (c :: cs) hp)
    · exact Or.inr (ih hs)

/-- Substring occurrences survive `str.lower()` when the needle is
fixed under lower-casing. -/
theorem strContainsSub_pyLower (content needle : String)
    (hfix : needle.data.map Char.toLower = needle.data)
    (h : strContainsSub content needle = true) :
    strContainsSub (pyLower content) needle = true := by
  have h2 := listContainsSub_map Char.toLower needle.data content.data h
  rw [hfix] at h2
  exact h2

/-! ## Claim C1 -/

/-- Claim C1: for every ascending list of interaction events and every
trim offset (in milliseconds; the `t * 1000` of the claim, computed by
the code as `int(trim_offset_sec * 1000)`), the post-trim rebasing
replaces each `atMs` by `max 0 (atMs - trimOffsetMs)` and the result is
still ascending (nondecreasing) in `atMs`. -/
theorem rebase_events_spec (trimOffsetMs : Int) (events : List InteractionEvent)
    (h : EventsAscending events) :
    rebase_events trimOffsetMs events =
      events.map (fun e => { e with atMs := max 0 (e.atMs - trimOffsetMs) }) ∧
    EventsAscending (rebase_events trimOffsetMs events) := by
  refine ⟨rfl, ?_⟩
  exact List.Pairwise.map _ (fun a b hab => by
    show max 0 (a.atMs - trimOffsetMs) ≤ max 0 (b.atMs - trimOffsetMs)
    exact max_le_max le_rfl (sub_le_sub_right hab trimOffsetMs)) h

/-- Witness for C1 at the 6.5 s trim offset of the code. -/
theorem rebase_events_spec_witness :
    rebase_events 6500
        ([⟨"click", 4500, 320, 180, "click"⟩,
          ⟨"scroll", 9000, 960, 540, "scroll_down"⟩] : List InteractionEvent) =
      ([⟨"click", 4500, 320, 180, "click"⟩,
          ⟨"scroll", 9000, 960, 540, "scroll_down"⟩] : List InteractionEvent).map
        (fun e => { e with atMs := max 0 (e.atMs - 6500) }) ∧
    EventsAscending (rebase_events 6500
      ([⟨"click", 4500, 320, 180, "click"⟩,
        ⟨"scroll", 9000, 960, 540, "scroll_down"⟩] : List InteractionEvent)) :=
  rebase_events_spec 6500
    ([⟨"click", 4500, 320, 180, "click"⟩,
      ⟨"scroll", 9000, 960, 540, "scroll_down"⟩] : List InteractionEvent)
    (by decide)

/-! ## Claim C5 -/

/-- Claim C5: a boolean judgement verdict `True` resolves to `pass` and
`False` to `fail`; a string verdict such as `FAIL` is lower-cased; with
no judgement exposed the verdict is `pass` exactly when the agent
reports completion. -/
theorem verdict_resolution_cases (r fr fin : Option String) (d : Bool) :
    resolve_verdict ⟨some ⟨JudgementVerdict.boolVal true, r, fr⟩, d, fin⟩ = "pass" ∧
    resolve_verdict ⟨some ⟨JudgementVerdict.boolVal false, r, fr⟩, d, fin⟩ = "fail" ∧
    resolve_verdict ⟨some ⟨JudgementVerdict.strVal "FAIL", r, fr⟩, d, fin⟩ = "fail" ∧
    (resolve_verdict ⟨none, d, fin⟩ = "pass" ↔ d = true) := by
  refine ⟨rfl, rfl, rfl, ?_⟩
  cases d
  · show ("fail" : String) = "pass" ↔ false = true
    decide
  · show ("pass" : String) = "pass" ↔ true = true
    decide

/-- Witness for C5 at concrete agent states. -/
theorem verdict_resolution_cases_witness :
    resolve_verdict ⟨some ⟨JudgementVerdict.boolVal true, none, none⟩, true, none⟩ = "pass" ∧
    resolve_verdict ⟨some ⟨JudgementVerdict.boolVal false, none, none⟩, true, none⟩ = "fail" ∧
    resolve_verdict ⟨some ⟨JudgementVerdict.strVal "FAIL", none, none⟩, true, none⟩ = "fail" ∧
    (resolve_verdict ⟨none, true, none⟩ = "pass" ↔ true = true) :=
  verdict_resolution_cases none none none true

/-! ## Claim C4 -/

/-- Claim C4 counterexample: an agent state whose judgement verdict is
the string `maybe` resolves to the verdict `maybe`, which is neither of
the two labels `pass` and `fail`, so verdict resolution does not always
produce one of the two labels. -/
theorem verdict_label_counterexample :
    resolve_verdict ⟨some ⟨JudgementVerdict.strVal "maybe", none, none⟩, false, none⟩ =
      "maybe" ∧
    ("maybe" : String) ≠ "pass" ∧ ("maybe" : String) ≠ "fail" := by
  decide

/-- Claim C4 (amended): verdict resolution is a total function (it
never throws on any judgement shape); whenever the judgement verdict is
a string, the result is that string lower-cased; in every other case
(no judgement, boolean verdict, absent or other-shaped verdict entry)
the result is exactly `pass` or `fail`. -/
theorem verdict_label_amended (h : AgentHistory) :
    (∀ s, h.judgement.map Judgement.verdict = some (JudgementVerdict.strVal s) →
      resolve_verdict h = pyLower s) ∧
    ((∀ s, h.judgement.map Judgement.verdict ≠ some (JudgementVerdict.strVal s)) →
      resolve_verdict h = "pass" ∨ resolve_verdict h = "fail") := by
  obtain ⟨j, d, fin⟩ := h
  constructor
  · intro s hs
    rcases j with _ | ⟨v, r, fr⟩
    · simp at hs
    · have hv : v = JudgementVerdict.strVal s := by simpa using hs
      rw [hv]
      rfl
  · intro hns
    rcases j with _ | ⟨v, r, fr⟩
    · cases d
      · exact Or.inr rfl
      · exact Or.inl rfl
    · rcases v with _ | b | s | _
      · cases d
        · exact Or.inr rfl
        · exact Or.inl rfl
      · cases b
        · exact Or.inr rfl
        · exact Or.inl rfl
      · exact (hns s rfl).elim
      · cases d
        · exact Or.inr rfl
        · exact Or.inl rfl

/-- Witness for the amended C4: a string verdict is lower-cased; a
history with no judgement resolves to one of the two labels. -/
theorem verdict_label_amended_witness :
    resolve_verdict ⟨some ⟨JudgementVerdict.strVal "FAIL", none, none⟩, false, none⟩ =
      pyLower "FAIL" ∧
    (resolve_verdict ⟨none, true, none⟩ = "pass" ∨
      resolve_verdict ⟨none, true, none⟩ = "fail") :=
  ⟨(verdict_label_amended ⟨some ⟨JudgementVerdict.strVal "FAIL", none, none⟩, false, none⟩).1
      "FAIL" rfl,
    (verdict_label_amended ⟨none, true, none⟩).2 (fun s hs => by simp at hs)⟩

/-! ## Claim C10 -/

/-- Claim C10: `analyze_file` labels every change `modified` exactly
when the file exists and `deleted` exactly when it does not; the
`added` change kind of the data model is never produced. -/
theorem change_type_spec (files : String → Option String) (p : String) :
    ((analyze_file files p).change_type = "modified" ↔ (files p).isSome = true) ∧
    ((analyze_file files p).change_type = "deleted" ↔ (files p).isSome = false) ∧
    (analyze_file files p).change_type ≠ "added" := by
  cases h : files p <;> refine ⟨?_, ?_, ?_⟩ <;>
    simp only [analyze_file, h, Option.isSome_some, Option.isSome_none] <;>
    decide

/-- Witness for C10 on a concrete filesystem holding one file. -/
theorem change_type_spec_witness :
    ((analyze_file (fun _ => some "<button>") "pages/index.tsx").change_type = "modified" ↔
      (some "<button>" : Option String).isSome = true) ∧
    ((analyze_file (fun _ => some "<button>") "pages/index.tsx").change_type = "deleted" ↔
      (some "<button>" : Option String).isSome = false) ∧
    (analyze_file (fun _ => some "<button>") "pages/index.tsx").change_type ≠ "added" :=
  change_type_spec (fun _ => some "<button>") "pages/index.tsx"

/-! ## Claim C2 -/

/-- The event trace of `run_tasks` depends only on the headless mode
and the fault point: the task list, base URL, fault text and the
collaborator oracles influence the returned result, never the process
lifecycle. -/
theorem run_tasks_trace_canon (tasks : List Task) (base_url msg : String)
    (hist : AgentHistory) (cx : Bool) (http : HttpOracle) (hd : Bool) (f : Option Fault) :
    (run_tasks tasks base_url ⟨hd, f, msg, hist, cx, http⟩).1 =
      (run_tasks [] "" ⟨hd, f, "", ⟨none, false, none⟩, false,
        ⟨0, none, 0, none, 0, none⟩⟩).1 := rfl

/-- Claim C2: on every exit path of `run_tasks` (every headless mode
and every fault point, including none), no capture-stop attempt ever
follows a display teardown, every started capture process receives
exactly one stop attempt, every started display process receives
exactly one teardown attempt, and no stop is attempted on a process
that was never started. -/
theorem cleanup_trace_spec (tasks : List Task) (base_url : String) (env : RunEnv) :
    noStopCaptureAfterStopXvfb (run_tasks tasks base_url env).1 = true ∧
    ((run_tasks tasks base_url env).1.contains Ev.startCapture = true →
      (run_tasks tasks base_url env).1.count Ev.stopCapture = 1) ∧
    ((run_tasks tasks base_url env).1.contains Ev.startXvfb = true →
      (run_tasks tasks base_url env).1.count Ev.stopXvfb = 1) ∧
    ((run_tasks tasks base_url env).1.contains Ev.startCapture = false →
      (run_tasks tasks base_url env).1.count Ev.stopCapture = 0) ∧
    ((run_tasks tasks base_url env).1.contains Ev.startXvfb = false →
      (run_tasks tasks base_url env).1.count Ev.stopXvfb = 0) := by
  obtain ⟨hd, f, msg, hist, cx, http⟩ := env
  rw [run_tasks_trace_canon]
  cases hd <;> rcases f with _ | f <;> (try cases f) <;> decide

/-- Witness for C2 on the headless success path: both processes are
started, capture is stopped exactly once and the display exactly
once. -/
theorem cleanup_trace_spec_witness :
    (run_tasks [⟨"t1", "Click submit"⟩] "http://localhost:3000"
        ⟨true, none, "", ⟨none, true, none⟩, false, ⟨200, none, 200, none, 200, none⟩⟩).1.count
      Ev.stopCapture = 1 ∧
    (run_tasks [⟨"t1", "Click submit"⟩] "http://localhost:3000"
        ⟨true, none, "", ⟨none, true, none⟩, false, ⟨200, none, 200, none, 200, none⟩⟩).1.count
      Ev.stopXvfb = 1 :=
  ⟨(cleanup_trace_spec [⟨"t1", "Click submit"⟩] "http://localhost:3000"
      ⟨true, none, "", ⟨none, true, none⟩, false, ⟨200, none, 200, none, 200, none⟩⟩).2.1
      (by decide),
    (cleanup_trace_spec [⟨"t1", "Click submit"⟩] "http://localhost:3000"
      ⟨true, none, "", ⟨none, true, none⟩, false, ⟨200, none, 200, none, 200, none⟩⟩).2.2.1
      (by decide)⟩

/-! ## Claim C3 -/

/-- Claim C3: an exception raised at the agent-run stage or at any
stage below it (event extraction, or any post-processing stage after
the in-try capture stop) is caught by the `except Exception` boundary:
`run_tasks` returns a result with `success = False` and the exception
text in the `error` field, in both headless modes.  The model returns a
value on every input, which is the no-propagation part of the claim. -/
theorem session_error_captured (tasks : List Task) (base_url : String) (env : RunEnv)
    (h : env.fault = some Fault.atAgentRun ∨ env.fault = some Fault.afterAgentRun ∨
      env.fault = some Fault.afterCaptureStop) :
    (run_tasks tasks base_url env).2.success = false ∧
    (run_tasks tasks base_url env).2.error = some env.faultMsg := by
  obtain ⟨hd, f, msg, hist, cx, http⟩ := env
  simp only at h
  rcases h with h | h | h <;> subst h <;> cases hd <;> exact ⟨rfl, rfl⟩

/-- Witness for C3: an exception text raised by `agent.run` lands in
the `error` field of a failed result. -/
theorem session_error_captured_witness :
    (run_tasks [⟨"t1", "Click submit"⟩] "http://localhost:3000"
        ⟨false, some Fault.atAgentRun, "step budget exceeded", ⟨none, false, none⟩, false,
          ⟨200, none, 200, none, 200, none⟩⟩).2.success = false ∧
    (run_tasks [⟨"t1", "Click submit"⟩] "http://localhost:3000"
        ⟨false, some Fault.atAgentRun, "step budget exceeded", ⟨none, false, none⟩, false,
          ⟨200, none, 200, none, 200, none⟩⟩).2.error = some "step budget exceeded" :=
  session_error_captured [⟨"t1", "Click submit"⟩] "http://localhost:3000"
    ⟨false, some Fault.atAgentRun, "step budget exceeded", ⟨none, false, none⟩, false,
      ⟨200, none, 200, none, 200, none⟩⟩
    (Or.inl rfl)

/-! ## Claim C9 -/

theorem run_tasks_success_eq (tasks : List Task) (base_url : String) (env : RunEnv) :
    (run_tasks tasks base_url env).2.success = (phaseDisplay env).ok := by
  cases h : (phaseDisplay env).ok <;>
    simp [run_tasks, h, successResult, failureResult]

/-- Claim C9: when the first upload step answers with a non-200 status,
`upload_to_convex` returns `None` (without raising: it is a total
function), and the success flag of the run result does not depend on
the HTTP oracle at all — replacing it by any other oracle leaves
`success` unchanged. -/
theorem upload_failure_spec (tasks : List Task) (base_url : String) (env : RunEnv)
    (o2 : HttpOracle) (hstatus : env.http.generateStatus ≠ 200) :
    upload_to_convex env.http = none ∧
    (run_tasks tasks base_url env).2.success =
      (run_tasks tasks base_url { env with http := o2 }).2.success := by
  constructor
  · unfold upload_to_convex
    rw [if_pos hstatus]
  · rw [run_tasks_success_eq, run_tasks_success_eq]
    rfl

/-- Witness for C9: an HTTP 500 on the signed-URL request yields no
URL, and the success flag equals the one of the same run with an oracle
that would let the upload succeed. -/
theorem upload_failure_spec_witness :
    upload_to_convex ⟨500, none, 200, none, 200, none⟩ = none ∧
    (run_tasks [⟨"t1", "Click submit"⟩] "http://localhost:3000"
        ⟨true, none, "", ⟨none, true, none⟩, true, ⟨500, none, 200, none, 200, none⟩⟩).2.success =
      (run_tasks [⟨"t1", "Click submit"⟩] "http://localhost:3000"
        { (⟨true, none, "", ⟨none, true, none⟩, true,
            ⟨500, none, 200, none, 200, none⟩⟩ : RunEnv) with
          http := ⟨200, some "u", 200, some "sid", 200, some "url"⟩ }).2.success :=
  upload_failure_spec [⟨"t1", "Click submit"⟩] "http://localhost:3000"
    ⟨true, none, "", ⟨none, true, none⟩, true, ⟨500, none, 200, none, 200, none⟩⟩
    ⟨200, some "u", 200, some "sid", 200, some "url"⟩
    (by decide)

/-! ## Claim C6 -/

theorem stepLines_getElem (tasks : List Task) (base : String) (i : Nat) (t : Task)
    (ht : tasks[i]? = some t) :
    (stepLines tasks base)[i]? = some (stepLine base i t) := by
  simp [stepLines, List.getElem?_map, List.getElem?_enum, ht]

set_option maxRecDepth 4000 in
/-- Claim C6 counterexample: the pattern of the `re.sub` call in
`build_prompt` is the case-sensitive literal `Navigate to `, so the
lower-case navigation phrase `navigate to /login` of a task description
is left verbatim in the combined prompt and no absolute URL is
produced for it. -/
theorem build_prompt_counterexample :
    strContainsSub
        (build_prompt [⟨"t1", "navigate to /login"⟩] "http://localhost:3000")
        "navigate to /login" = true ∧
    strContainsSub
        (build_prompt [⟨"t1", "navigate to /login"⟩] "http://localhost:3000")
        "http://localhost:3000/login" = false := by
  decide

/-- Claim C6 (amended): for every non-empty task list and base URL,
`build_prompt` numbers the tasks as consecutive steps in input order
with the step at zero-based position i labelled `Step i+1` and carrying
the i-th task identifier in brackets; every navigation phrase of the
exact, case-sensitive form `Navigate to /X` in a (stripped) task
description is rewritten by prefixing the base URL, as in the `/login`
example; phrases differing in case are left unchanged. -/
theorem build_prompt_amended (tasks : List Task) (base_url : String)
    (_hne : tasks ≠ []) :
    (∀ i t, tasks[i]? = some t →
      (stepLines tasks base_url)[i]? =
        some ("  Step " ++ toString (i + 1) ++ " [" ++ t.id ++ "]: " ++
          expandRel base_url (pyStrip t.description))) ∧
    build_prompt tasks base_url =
      "The app is running at " ++ base_url ++
      "\n\nComplete the following verification steps in order:\n\n" ++
      joinLines "\n" (stepLines tasks base_url) ++
      "\n\nRecording instructions (important):\n" ++
      "- Complete ALL steps in sequence — do not skip any.\n" ++
      "- If a step cannot be completed (element not found, page error, etc.), stop immediately and report failure. Do not retry endlessly.\n" ++
      "- Do not close the browser when done." ∧
    expandRel "http://localhost:3000" "Navigate to /login" =
      "Navigate to http://localhost:3000/login" := by
  refine ⟨?_, rfl, by decide⟩
  intro i t ht
  exact stepLines_getElem tasks base_url i t ht

/-- Witness for the amended C6 on the two-task example of the spec. -/
theorem build_prompt_amended_witness :
    (stepLines [⟨"t1", "Navigate to /login"⟩, ⟨"t2", "Click submit"⟩]
        "http://localhost:3000")[0]? =
      some ("  Step " ++ toString (0 + 1) ++ " [" ++ "t1" ++ "]: " ++
        expandRel "http://localhost:3000" (pyStrip "Navigate to /login")) ∧
    expandRel "http://localhost:3000" "Navigate to /login" =
      "Navigate to http://localhost:3000/login" :=
  ⟨(build_prompt_amended [⟨"t1", "Navigate to /login"⟩, ⟨"t2", "Click submit"⟩]
      "http://localhost:3000" (by decide)).1 0 ⟨"t1", "Navigate to /login"⟩ rfl,
    (build_prompt_amended [⟨"t1", "Navigate to /login"⟩, ⟨"t2", "Click submit"⟩]
      "http://localhost:3000" (by decide)).2.2⟩

/-! ## Claim C7 -/

/-- Claim C7 counterexample: `app/layout.jsx` is an app-router path
whose layout filename is not dropped — the analyzer only excludes the
filenames `page.tsx`, `page.jsx` and `layout.tsx`, so the inferred
route is `/layout.jsx` instead of `/`. -/
theorem extract_route_counterexample :
    extract_route "app/layout.jsx" = "/layout.jsx" ∧
    ("/layout.jsx" : String) ≠ "/" := by
  decide

/-- Every segment kept by the app-router walk is free of the dropped
shapes: it does not start with a parenthesis, is none of the three
excluded filenames, and is not the `app` marker itself. -/
theorem appSegs_mem :
    ∀ (parts : List String) (inApp : Bool) (s : String), s ∈ appSegs inApp parts →
      startsParen s = false ∧ s ≠ "page.tsx" ∧ s ≠ "page.jsx" ∧
        s ≠ "layout.tsx" ∧ s ≠ "app" := by
  intro parts
  induction parts with
  | nil => intro inApp s hs; simp [appSegs] at hs
  | cons a t ih =>
    intro inApp s hs
    simp only [appSegs] at hs
    split_ifs at hs with h1 h2
    · exact ih true s hs
    · rcases List.mem_cons.mp hs with rfl | hs2
      · simp only [Bool.and_eq_true, Bool.not_eq_true', Bool.or_eq_false_iff,
          decide_eq_false_iff_not] at h2
        obtain ⟨⟨-, ⟨hpt, hpj⟩, hlt⟩, hsp⟩ := h2
        exact ⟨hsp, hpt, hpj, hlt, h1⟩
      · exact ih inApp s hs2
    · exact ih inApp s hs

/-- Claim C7 (amended): route inference maps `pages/index.tsx` to `/`,
`pages/about.tsx` to `/about` and `app/(marketing)/blog/page.tsx` to
`/blog`; for app-router paths every parenthesized route-group segment
and every `page.tsx`/`page.jsx`/`layout.tsx` filename is dropped (a
`layout.jsx` filename is not dropped); for pages-router paths an index
file maps to the root route and any other file to `/` plus its stem. -/
theorem extract_route_amended :
    extract_route "pages/index.tsx" = "/" ∧
    extract_route "pages/about.tsx" = "/about" ∧
    extract_route "app/(marketing)/blog/page.tsx" = "/blog" ∧
    (∀ (parts : List String) (inApp : Bool) (s : String), s ∈ appSegs inApp parts →
      startsParen s = false ∧ s ≠ "page.tsx" ∧ s ≠ "page.jsx" ∧ s ≠ "layout.tsx") ∧
    (∀ p : String, strContainsSub p "app/" = false → strContainsSub p "pages/" = true →
      extract_route p =
        (if stemOf ((pathParts p).getLastD "") = "index" then "/"
          else "/" ++ stemOf ((pathParts p).getLastD ""))) := by
  refine ⟨by decide, by decide, by decide, ?_, ?_⟩
  · intro parts inApp s hs
    obtain ⟨hp, h1, h2, h3, _⟩ := appSegs_mem parts inApp s hs
    exact ⟨hp, h1, h2, h3⟩
  · intro p h1 h2
    simp only [extract_route, h1, h2]
    rfl

/-- Witness for the amended C7: a kept segment of a concrete app path
is none of the dropped shapes, and a concrete pages path follows the
stem rule. -/
theorem extract_route_amended_witness :
    (startsParen "blog" = false ∧ "blog" ≠ "page.tsx" ∧ "blog" ≠ "page.jsx" ∧
      "blog" ≠ "layout.tsx") ∧
    extract_route "pages/about.tsx" =
      (if stemOf ((pathParts "pages/about.tsx").getLastD "") = "index" then "/"
        else "/" ++ stemOf ((pathParts "pages/about.tsx").getLastD "")) :=
  ⟨extract_route_amended.2.2.2.1 ["app", "blog"] false "blog" (by decide),
    extract_route_amended.2.2.2.2 "pages/about.tsx" (by decide) (by decide)⟩

/-! ## Claim C8 -/

/-- Claim C8: for every file content the detected interaction list is a
duplicate-free subsequence of the fixed vocabulary order; in particular
a file containing both of the substrings of the claim yields both
`click_button` and `fill_form`, in that order, each exactly once. -/
theorem detect_interactions_spec (content : String) :
    (detect_interactions content).Sublist interactionVocab ∧
    (detect_interactions content).Nodup ∧
    (strContainsSub content "<button" = true → strContainsSub content "<form" = true →
      List.Sublist ["click_button", "fill_form"] (detect_interactions content) ∧
      (detect_interactions content).count "click_button" = 1 ∧
      (detect_interactions content).count "fill_form" = 1) := by
  refine ⟨?_, ?_, ?_⟩
  · unfold detect_interactions interactionVocab
    split_ifs <;> decide
  · unfold detect_interactions
    split_ifs <;> decide
  · intro h1 h2
    have hb : strContainsSub (pyLower content) "<button" = true :=
      strContainsSub_pyLower content "<button" (by decide) h1
    have hf : strContainsSub (pyLower content) "<form" = true :=
      strContainsSub_pyLower content "<form" (by decide) h2
    unfold detect_interactions
    simp only [hb, hf, Bool.true_or, if_true]
    split_ifs <;> refine ⟨?_, ?_, ?_⟩ <;> decide

/-- Witness for C8 on a file containing a button and a form. -/
theorem detect_interactions_spec_witness :
    List.Sublist ["click_button", "fill_form"]
      (detect_interactions "<button>Go</button><form></form>") ∧
    (detect_interactions "<button>Go</button><form></form>").count "click_button" = 1 ∧
    (detect_interactions "<button>Go</button><form></form>").count "fill_form" = 1 :=
  (detect_interactions_spec "<button>Go</button><form></form>").2.2 (by decide) (by decide)

end DemoRecorder
